import Mathlib

/-!
Verification development for the Scrape_regularize repository
(`pgfn_client.py`, `regularize_client.py`, `main.py`, `config.py`, `storage.py`).

The Python source is shallowly embedded: pure helpers become Lean functions,
Python `float` values are modelled as exact rationals (`ℚ`), byte strings as
`List ℕ`, and code that raises exceptions returns `Option`/`Except` or carries
an explicit "raised" flag where the source catches the exception mid-loop.
Interactions with the browser-automation capability (Playwright) are modelled
as explicit environments: a record of what each UI/network primitive would
return at each step, so the orchestration logic of the source becomes a total
function of that environment.
-/

namespace Scrape

/-! ## Python string primitives used by the source

The source calls `str.strip()`, `str.replace(c, c')` with single-character
literal arguments, `str.lower()`, and the substring test `needle in hay`.
We embed them at the character-list level.
-/

/-- ASCII whitespace recognized by Python `str.strip()` (the unicode cases are
not exercised by any portal payload modelled here). -/
def isPyWs (c : Char) : Bool :=
  c = ' ' || c = '\t' || c = '\n' || c = '\r' || c = '\x0b' || c = '\x0c'

/-- Python `s.strip()`: drop whitespace from both ends. -/
def pyStrip (s : String) : String :=
  String.mk (((s.toList.dropWhile isPyWs).reverse.dropWhile isPyWs).reverse)

/-- Python `s.replace(a, '')` for a single-character pattern `a`: every
occurrence is removed. -/
def pyRemoveChar (a : Char) (s : String) : String :=
  String.mk (s.toList.filter (fun c => ¬ c = a))

/-- Python `s.replace(a, b)` for single-character `a`, `b`: every occurrence
of `a` becomes `b`. -/
def pyReplaceChar (a b : Char) (s : String) : String :=
  String.mk (s.toList.map (fun c => if c = a then b else c))

/-- Occurrence test on character lists: `needle` appears as a contiguous
block of `hay`. -/
def subOf (needle : List Char) : List Char → Bool
  | [] => needle.isEmpty
  | c :: rest => needle.isPrefixOf (c :: rest) || subOf needle rest

/-- Python `needle in hay` on strings. -/
def containsSub (needle hay : String) : Bool :=
  subOf needle.toList hay.toList

/-- Python `s.lower()` (ASCII; the markers and content types compared in the
source are ASCII). -/
def pyLower (s : String) : String :=
  String.mk (s.toList.map Char.toLower)

/-! ## Python `float(s)` on decimal strings

`_to_float_safe` feeds `float()` a stripped string whose dots were removed and
whose commas became dots.  We model the decimal fragment of Python's `float`
grammar: optional sign, digits with at most one dot, at least one digit.
(Exponents, `inf`/`nan` and digit underscores are outside every string this
program can build from those rewrites of portal payload fields and are
rejected by the model; no claim below depends on them.)
Values are exact rationals rather than IEEE doubles. -/

/-- Value of a digit list read in base 10 (e.g. `['1','0','5'] ↦ 105`). -/
def digitsVal (l : List Char) : ℕ :=
  l.foldl (fun n c => 10 * n + (c.toNat - 48)) 0

/-- Parse an unsigned decimal `ddd`, `ddd.ddd`, `ddd.` or `.ddd`.  The value
of `ip.fp` is the exact rational `(ip * 10^|fp| + fp) / 10^|fp|`, built with
`mkRat` so that it evaluates by kernel reduction. -/
def parseUnsignedDec (cs : List Char) : Option ℚ :=
  if (cs.all (fun c => c.isDigit || c = '.')) = true ∧
     cs.count '.' ≤ 1 ∧ (cs.any Char.isDigit) = true then
    let ip := cs.takeWhile (fun c => ¬ c = '.')
    let fp := (cs.dropWhile (fun c => ¬ c = '.')).drop 1
    some (mkRat (digitsVal ip * 10 ^ fp.length + digitsVal fp) (10 ^ fp.length))
  else
    Option.none

/-- Python `float(s)` restricted to plain decimal notation; `Option.none`
models the `ValueError` that `_to_float_safe` catches. -/
def pyFloatOfString (s : String) : Option ℚ :=
  match s.toList with
  | [] => Option.none
  | c :: rest =>
    if c = '-' then (parseUnsignedDec rest).map (fun q => -q)
    else if c = '+' then parseUnsignedDec rest
    else parseUnsignedDec (c :: rest)

/-! ## `pgfn_client._to_float_safe` -/

/-- The Python values `_to_float_safe` can receive (`None`, `int`, `float`,
`bool` — a subclass of `int` in Python — or `str`). -/
inductive PyVal where
  | none
  | int (n : ℤ)
  | float (q : ℚ)
  | bool (b : Bool)
  | str (s : String)
  deriving DecidableEq

/-- `pgfn_client.py` lines 18–28.  `None` returns `None` before the `try:`;
`int`/`float` (and `bool`, an `int` subclass) pass through `float(val)`;
a string is stripped, its dots removed, its commas turned into dots, and
parsed; any parse failure is caught and becomes `None`.  The Lean function is
total: its totality is the embedding of "never raises". -/
def toFloatSafe : PyVal → Option ℚ
  | .none => Option.none
  | .int n => some (n : ℚ)
  | .float q => some q
  | .bool b => some (if b then 1 else 0)
  | .str v =>
    pyFloatOfString (pyReplaceChar ',' '.' (pyRemoveChar '.' (pyStrip v)))

/-! ## JSON payloads and the record extractor of `PGFNClient.search_company`

`resp.json()` delivers an untyped tree.  `search_company` (pgfn_client.py
lines 298–384) turns each table row's captured detail payload into a
`DebtorRow` and deduplicates by `cnpj`.
-/

/-- Untyped JSON tree, as delivered by `resp.json()`. -/
inductive Json where
  | null
  | bool (b : Bool)
  | num (q : ℚ)
  | str (s : String)
  | arr (xs : List Json)
  | obj (fields : List (String × Json))

/-- First binding of a key in an object's field list (Python `dict` keys are
unique, so first-match is exact). -/
def lookupField : List (String × Json) → String → Option Json
  | [], _ => Option.none
  | (k', v) :: rest, k => if k' = k then some v else lookupField rest k

/-- Python `d.get(k)` on a JSON value; `Option.none` also covers the
`AttributeError` a non-dict raises (callers that let it raise match on
`.obj` first). -/
def Json.get (j : Json) (k : String) : Option Json :=
  match j with
  | .obj fs => lookupField fs k
  | _ => Option.none

/-- Python truthiness of a JSON value (`if self._last_detail_json:`,
`deb.get("numero")` tests, `or` fallbacks). -/
def jsonTruthy : Json → Bool
  | .null => false
  | .bool b => b
  | .num q => q ≠ 0
  | .str s => ¬ s.isEmpty
  | .arr xs => ¬ xs.isEmpty
  | .obj fs => ¬ fs.isEmpty

/-- Python `str(v)` on a JSON scalar.  Only the string case is reached by any
claim below; for the other shapes a canonical rendering stands in for
Python's `repr`-based text. -/
def pyStrOfJson : Json → String
  | .str s => s
  | .num q => toString q
  | .bool b => if b then "True" else "False"
  | .null => "None"
  | .arr _ => "[...]"
  | .obj _ => "{...}"

/-- `cnpj = str(data_detail.get("id") or "").strip()` (pgfn_client.py line
362): a missing or falsy `id` yields the empty string — the row is still
forwarded. -/
def extractCnpj (j : Json) : String :=
  match j.get "id" with
  | some v => if jsonTruthy v then pyStrip (pyStrOfJson v) else ""
  | Option.none => ""

/-- One step of the inner `for deb in nat.get("debitos", []) or []` loop
(pgfn_client.py lines 366–368).  The `Bool` is the "an exception escaped
here" flag: `deb.get` on a non-dict raises `AttributeError`, which the
`except` at line 369 turns into keeping the partial list. -/
def debStep (acc : List String) (deb : Json) : List String × Bool :=
  match deb with
  | .obj _ =>
    match deb.get "numero" with
    | some v =>
      if jsonTruthy v then (acc ++ [pyStrip (pyStrOfJson v)], false) else (acc, false)
    | Option.none => (acc, false)
  | _ => (acc, true)

/-- The inner debit loop: stops at the first raising element, keeping what
was appended so far. -/
def debLoop (acc : List String) : List Json → List String × Bool
  | [] => (acc, false)
  | d :: ds =>
    match debStep acc d with
    | (acc2, true) => (acc2, true)
    | (acc2, false) => debLoop acc2 ds

/-- `nat.get("debitos", []) or []` then the debit loop.  A non-dict `nat`
raises at `nat.get`; a truthy non-list `debitos` value raises on its first
iteration step before any debit is read. -/
def natStep (acc : List String) (nat : Json) : List String × Bool :=
  match nat with
  | .obj _ =>
    match
      (match nat.get "debitos" with
       | some v => if jsonTruthy v then v else .arr []
       | Option.none => .arr []) with
    | .arr ds => debLoop acc ds
    | _ => (acc, true)
  | _ => (acc, true)

/-- The outer `for nat in data_detail.get("naturezas", []) or []` loop. -/
def natLoop (acc : List String) : List Json → List String × Bool
  | [] => (acc, false)
  | n :: ns =>
    match natStep acc n with
    | (acc2, true) => (acc2, true)
    | (acc2, false) => natLoop acc2 ns

/-- pgfn_client.py lines 363–370: collect `str(deb["numero"]).strip()` over
`naturezas × debitos`; the surrounding `try/except: pass` keeps the partial
list when any step raises. -/
def extractInscriptions (j : Json) : List String :=
  match
    (match j.get "naturezas" with
     | some v => if jsonTruthy v then v else .arr []
     | Option.none => .arr []) with
  | .arr ns => (natLoop [] ns).1
  | _ => []

/-- `pgfn_client.DebtorRow` (lines 12–15). -/
structure DebtorRow where
  cnpj : String
  inscriptions : Option (List String) := Option.none
  deriving DecidableEq

/-- What the browser would deliver for one result-table row inside the
`for idx, row in enumerate(rows, 1)` loop: whether a detail button exists
(line 301), whether some UI call in the row body threw (caught at line 377,
row skipped), and the detail payload the response listener captured for this
row (`Option.none`: the 20-second poll at lines 355–358 never saw one). -/
structure RowEvent where
  detailBtn : Bool
  raised : Bool
  detailJson : Option Json

/-- pgfn_client.py lines 299–378: one table row to at most one `DebtorRow`.
A falsy payload (e.g. `{}`) never passes the `if self._last_detail_json:`
poll, so it counts as not captured; a truthy non-dict payload raises at
`data_detail.get("id")` and the row is skipped; otherwise the row is
forwarded whatever `extractCnpj` returns — including the empty string. -/
def processRow (ev : RowEvent) : Option DebtorRow :=
  if ev.detailBtn && !ev.raised then
    match ev.detailJson with
    | some j =>
      if jsonTruthy j then
        match j with
        | .obj _ => some ⟨extractCnpj j, some (extractInscriptions j)⟩
        | _ => Option.none
      else Option.none
    | Option.none => Option.none
  else Option.none

/-- All rows of one successful search response, in table order. -/
def processRows (evs : List RowEvent) : List DebtorRow :=
  evs.filterMap processRow

/-- pgfn_client.py lines 380–384: `unique = {}` / insert if absent /
`list(unique.values())` — keep the first row per `cnpj`, in first-seen
order (Python dicts preserve insertion order). -/
def dedupGo (seen : List String) : List DebtorRow → List DebtorRow
  | [] => []
  | d :: ds =>
    if d.cnpj ∈ seen then dedupGo seen ds
    else d :: dedupGo (d.cnpj :: seen) ds

/-- The deduplication applied to the extracted rows before returning. -/
def dedupByCnpj (ds : List DebtorRow) : List DebtorRow :=
  dedupGo [] ds

/-- Spec-side description of the dedup ordering ("output preserves
first-seen order of identifiers"): the identifier sequence with every
repeat of an already-seen identifier removed. -/
def firstSeenGo (seen : List String) : List String → List String
  | [] => []
  | c :: cs =>
    if c ∈ seen then firstSeenGo seen cs
    else c :: firstSeenGo (c :: seen) cs

/-- First-seen identifier order, from an empty seen-set. -/
def firstSeenKeys (cs : List String) : List String :=
  firstSeenGo [] cs

/-! ## The retry loop of `PGFNClient.search_company`

pgfn_client.py lines 143–288.  Each iteration of `while attempt <
max_attempts` submits the query and waits for the `/api/devedores`
response; the environment records what the portal would do on each attempt.
-/

/-- Python `or` over optional header/storage strings: `None` and `""` are
both falsy. -/
def truthyStr : Option String → Option String
  | some s => if s.isEmpty then Option.none else some s
  | Option.none => Option.none

/-- What `expect_response` delivers on one attempt: a timeout (the `except`
at line 254), or a response with its status, lowercased `authorization` /
`total-control` headers, the token `localStorage`/`sessionStorage` would
yield at lines 273 and 282, and — when the page then renders — the result
table rows. -/
inductive RespOutcome where
  | timeout
  | resp (status : ℕ) (hdrAuth hdrTotalControl storeTok reloadTok : Option String)
      (rows : List RowEvent)

/-- One cycle of the environment: whether the `Consultar` button is found
(line 228), and the response outcome. -/
structure SearchAttempt where
  btnFound : Bool
  outcome : RespOutcome

/-- The `while attempt < max_attempts` loop, fuel = remaining attempts (the
entry point keeps `done + remaining = max_attempts`, so the source's
`attempt < max_attempts` test is `remaining > 0` after this cycle).
Returns the debtor list together with the number of cycles performed.
`tok` is `self._auth_token`; it is attached to requests by the route
handler but never read by the control flow below, and is threaded for
fidelity.  A non-ok, non-401 status falls past both handlers and the loop
simply continues — exactly the source. -/
def searchLoop (env : ℕ → SearchAttempt) (tok : Option String) (done : ℕ) :
    ℕ → List DebtorRow × ℕ
  | 0 => ([], done)
  | rem + 1 =>
    let a := env done
    if a.btnFound then
      match a.outcome with
      | .timeout =>
        if rem > 0 then searchLoop env tok (done + 1) rem
        else ([], done + 1)
      | .resp status hAuth hTC storeTok reloadTok rows =>
        if status = 401 then
          match truthyStr hAuth <|> truthyStr hTC with
          | some t => searchLoop env (some t) (done + 1) rem
          | Option.none =>
            match truthyStr storeTok with
            | some t => searchLoop env (some t) (done + 1) rem
            | Option.none =>
              if rem > 0 then
                searchLoop env
                  (match truthyStr reloadTok with
                   | some t => some t
                   | Option.none => tok)
                  (done + 1) rem
              else ([], done + 1)
        else if 200 ≤ status ∧ status ≤ 299 then
          (dedupByCnpj (processRows rows), done + 1)
        else
          searchLoop env tok (done + 1) rem
    else ([], done + 1)

/-- `PGFNClient.search_company(name_query, max_attempts=3)`: run the retry
loop from a fresh attempt counter and no cached token.  The query string
itself only parametrizes the UI interaction, so it does not appear. -/
def searchCompany (env : ℕ → SearchAttempt) (maxAttempts : ℕ) :
    List DebtorRow × ℕ :=
  searchLoop env Option.none 0 maxAttempts

/-- A cycle whose `Consultar` button is found and whose awaited
`/api/devedores` response has HTTP status 401 ("reports unauthorized"). -/
def reportsUnauthorized (a : SearchAttempt) : Bool :=
  a.btnFound &&
    (match a.outcome with
     | .resp status _ _ _ _ _ => status == 401
     | .timeout => false)

/-- A one-row environment: the search succeeds (HTTP 200) and the single
table row's captured detail payload is a truthy dict without an `"id"`
field. -/
def noIdEnv : ℕ → SearchAttempt :=
  fun _ => ⟨true, .resp 200 Option.none Option.none Option.none Option.none
    [⟨true, false, some (.obj [("naturezas", .arr [])])⟩]⟩

/-! ## `RegularizeClient.emitir_darf_integral`

regularize_client.py.  The `open()` listener (lines 25–38) keeps the body of
the most recent `application/pdf` response in `self._last_pdf_bytes`;
`emitir_darf_integral` (lines 42–121) tries a download event first and falls
back to those bytes.
-/

/-- One response seen by the `on_response` listener: its `content-type`
header and its body (`Option.none`: `resp.body()` raised, which the listener
turns into `self._last_pdf_bytes = None`). -/
structure PdfEvent where
  contentType : String
  body : Option (List ℕ)

/-- regularize_client.py lines 25–36: fold the session's responses; every
pdf-typed response overwrites the slot with its body (or `None` on a failed
body read), others leave it unchanged. -/
def lastPdfBytes : List PdfEvent → Option (List ℕ) → Option (List ℕ)
  | [], acc => acc
  | ev :: evs, acc =>
    lastPdfBytes evs
      (if containsSub "application/pdf" (pyLower ev.contentType) then ev.body else acc)

/-- One `Imprimir` selector in the download loop (lines 91–105): whether
`p.locator(btn).count() > 0`, and the bytes of the download event if one
fires before the timeout (`Option.none`: `expect_download` raised and the
loop continues with the next selector). -/
structure BtnTry where
  present : Bool
  download : Option (List ℕ)

/-- The `for btn in [...]` download loop: first present selector whose
download fires wins (`break`); exceptions and absent selectors continue. -/
def downloadPhase : List BtnTry → Option (List ℕ)
  | [] => Option.none
  | t :: ts =>
    if t.present then
      match t.download with
      | some b => some b
      | Option.none => downloadPhase ts
    else downloadPhase ts

/-- `f"DARF_{cnpj_digits_only}_{inscricao.replace(' ', '_').replace('/', '-')}.pdf"`
(lines 97 and 111) — a function of the two identifiers only. -/
def darfFileName (cnpj inscricao : String) : String :=
  "DARF_" ++ cnpj ++ "_" ++ pyReplaceChar '/' '-' (pyReplaceChar ' ' '_' inscricao) ++ ".pdf"

/-- The file the flow persists: directory, name, and the bytes written. -/
structure DocumentArtifact where
  dir : String
  fname : String
  bytes : List ℕ
  deriving DecidableEq

instance {ε α : Type} [DecidableEq ε] [DecidableEq α] : DecidableEq (Except ε α) :=
  fun a b =>
    match a, b with
    | .error x, .error y =>
      if h : x = y then isTrue (congrArg Except.error h)
      else isFalse (fun hc => h (Except.error.inj hc))
    | .ok x, .ok y =>
      if h : x = y then isTrue (congrArg Except.ok h)
      else isFalse (fun hc => h (Except.ok.inj hc))
    | .error _, .ok _ => isFalse (fun hc => Except.noConfusion hc)
    | .ok _, .error _ => isFalse (fun hc => Except.noConfusion hc)

/-- What the automation capability would deliver during one
`emitir_darf_integral` call: the download loop's per-selector outcomes and
the responses the background listener has seen so far. -/
structure EmitirEnv where
  tries : List BtnTry
  captured : List PdfEvent

/-- An environment where both `Imprimir` selectors exist but no download
event ever fires, and the listener captured one `application/pdf` response
whose body is empty. -/
def emptyPdfEnv : EmitirEnv :=
  ⟨[⟨true, Option.none⟩, ⟨true, Option.none⟩], [⟨"application/pdf", some []⟩]⟩

/-- regularize_client.py lines 42–121.  Form filling and the two
`safe_click`s never abort the flow (their results are discarded), so only
the acquisition phase decides the outcome: a fired download event persists
its bytes; otherwise `if pdf_path is None and self._last_pdf_bytes:` falls
back to the captured bytes — note the Python truthiness: empty captured
bytes (`b""`) are falsy and are treated as no capture.  `Except.error ()`
is the `RuntimeError` at line 119. -/
def emitirDarfIntegral (downloadDir cnpj inscricao : String) (env : EmitirEnv) :
    Except Unit DocumentArtifact :=
  let lastPdf := lastPdfBytes env.captured Option.none
  match downloadPhase env.tries with
  | some b => .ok ⟨downloadDir, darfFileName cnpj inscricao, b⟩
  | Option.none =>
    match lastPdf with
    | some b =>
      if b.isEmpty then .error ()
      else .ok ⟨downloadDir, darfFileName cnpj inscricao, b⟩
    | Option.none => .error ()

/-! ## `main._solve_hcaptcha_with_2captcha` and `main.run`

main.py lines 114–217 (challenge adapter) and 220–289 (orchestrator).
-/

/-- One iteration of the solver loop: the token 2Captcha returns
(`Option.none` models an empty `result.get("code")` and the raised-exception
path alike — both `continue`), and the value read back from the
`h-captcha-response` textarea after injection (`Option.none`: element
missing). -/
structure SolveAttempt where
  code : Option String
  readback : Option String

/-- The page-side environment of one adapter call: the rendered content
(`page.content()`), the localStorage/sessionStorage `auth_token` (line 196,
`''` when absent), and the solver outcome of each call. -/
structure AdapterEnv where
  content : String
  authTok : String
  attempts : ℕ → SolveAttempt

/-- `main._detect_hcaptcha_sitekey` (lines 65–109): with `validate=False` —
the only way the adapter calls it — the hardcoded sitekey is returned
unconditionally; the validating path returns it only when the page carries
the matching `data-sitekey` attribute. -/
def detectHcaptchaSitekey (validate : Bool) (pageHasSitekey : Bool) : Option String :=
  if validate = false then some "f8c1756d-a455-498f-94d4-05b16d8ad6b1"
  else if pageHasSitekey then some "f8c1756d-a455-498f-94d4-05b16d8ad6b1"
  else Option.none

/-- The `while attempt <= retries` loop (lines 141–214), fuel = remaining
iterations (`retries + 1` at entry).  Counts the outbound 2Captcha calls:
each iteration makes exactly one.  A truthy read-back returns the success
triple; an empty solver result or a failed read-back `continue`s. -/
def solveLoop (env : AdapterEnv) (calls : ℕ) :
    ℕ → (Bool × Option String × Option String) × ℕ
  | 0 => ((false, Option.none, Option.none), calls)
  | b + 1 =>
    let a := env.attempts calls
    match a.code with
    | Option.none => solveLoop env (calls + 1) b
    | some _tok =>
      match truthyStr a.readback with
      | some inj => ((true, some inj, some env.authTok), calls + 1)
      | Option.none => solveLoop env (calls + 1) b

/-- main.py lines 114–217.  Returns the source's `(success, hcaptcha token,
auth token)` triple together with the number of calls made to the external
solving capability.  Line 127: when the lowercased content contains neither
`"hcaptcha"` nor `"captcha"`, return `(True, None, None)` at once — the
no-op path, zero solver calls. -/
def solveHcaptchaWith2captcha (env : AdapterEnv) (retries : ℕ) :
    (Bool × Option String × Option String) × ℕ :=
  let content := pyLower env.content
  if ¬ (containsSub "hcaptcha" content) = true ∧ ¬ (containsSub "captcha" content) = true then
    ((true, Option.none, Option.none), 0)
  else
    match detectHcaptchaSitekey false true with
    | Option.none => ((false, Option.none, Option.none), 0)
    | some _sk => solveLoop env 0 (retries + 1)

/-- The module-level 2Captcha key hardcoded at main.py line 14; `run` tests
it for truthiness before invoking the adapter. -/
def apiKeyModule : String := "fa1fc5bae63538830211919b4878aec6"

/-- Python tuple unpacking `a, b = t` for a tuple modelled as a value list:
any arity other than 2 raises `ValueError`. -/
def pyUnpack2 (vs : List PyVal) : Except Unit (PyVal × PyVal) :=
  match vs with
  | [a, b] => .ok (a, b)
  | _ => .error ()

/-- The tuple value `_solve_hcaptcha_with_2captcha` returns (its four
`return` statements at lines 129, 134, 208 and 217 all build a 3-tuple). -/
def solveResultTuple (ok : Bool) (tok auth : Option String) : List PyVal :=
  [.bool ok,
   (match tok with | some s => .str s | Option.none => .none),
   (match auth with | some s => .str s | Option.none => .none)]

/-- main.py lines 231–242: `run` reaches `pgfn.search_company(...)` only if
the statement `solved, auth_token = await _solve_hcaptcha_with_2captcha(...)`
does not raise; an exception propagates to the `except` at line 273, which
logs and `sys.exit(1)`s.  When `api_key` is falsy the solver step is skipped
and search is reached directly. -/
def runChallengeReachesSearch (apiKey : String)
    (adapter : Bool × Option String × Option String) : Bool :=
  if apiKey.isEmpty then true
  else
    match pyUnpack2 (solveResultTuple adapter.1 adapter.2.1 adapter.2.2) with
    | .ok _ => true
    | .error _ => false

/-! ## `PGFNClient._bulletproof_click` -/

/-- The click strategies the spec's fallback chain names.  `keyboard` is
included so its absence from every trace is expressible. -/
inductive ClickStrategy where
  | normal
  | force
  | keyboard
  deriving DecidableEq

/-- What the page would do for each click strategy on this selector. -/
structure ClickEnv where
  normalOk : Bool
  forceOk : Bool

/-- pgfn_client.py lines 97–113: try `p.click(selector)`, on exception try
`p.click(selector, force=True)`, on exception return `False`.  Returns the
success flag and the ordered trace of strategies attempted. -/
def bulletproofClick (env : ClickEnv) : Bool × List ClickStrategy :=
  if env.normalOk then (true, [.normal])
  else if env.forceOk then (true, [.normal, .force])
  else (false, [.normal, .force])

/-! # Helper lemmas -/

theorem dedupGo_map_cnpj (ds : List DebtorRow) :
    ∀ seen, (dedupGo seen ds).map DebtorRow.cnpj = firstSeenGo seen (ds.map DebtorRow.cnpj) := by
  induction ds with
  | nil => intro seen; rfl
  | cons d ds ih =>
    intro seen
    by_cases h : d.cnpj ∈ seen
    · simp [dedupGo, firstSeenGo, h, ih]
    · simp [dedupGo, firstSeenGo, h, ih]

theorem dedupGo_filter_of_seen (c : String) (ds : List DebtorRow) :
    ∀ seen, c ∈ seen →
      (dedupGo seen ds).filter (fun d => d.cnpj == c) = [] := by
  induction ds with
  | nil => intro seen _; rfl
  | cons d ds ih =>
    intro seen hc
    by_cases h : d.cnpj ∈ seen
    · simpa [dedupGo, h] using ih seen hc
    · have hne : (d.cnpj == c) = false := by
        refine beq_eq_false_iff_ne.mpr (fun he => h ?_)
        exact he ▸ hc
      simp only [dedupGo, if_neg h, List.filter_cons, hne]
      exact ih (d.cnpj :: seen) (List.mem_cons_of_mem _ hc)

theorem dedupGo_filter_first (c : String) (ds : List DebtorRow) :
    ∀ seen, c ∉ seen →
      (dedupGo seen ds).filter (fun d => d.cnpj == c) =
        (ds.find? (fun d => d.cnpj == c)).toList := by
  induction ds with
  | nil => intro seen _; rfl
  | cons d ds ih =>
    intro seen hc
    by_cases hmem : d.cnpj ∈ seen
    · have hne : (d.cnpj == c) = false :=
        beq_eq_false_iff_ne.mpr (fun he => hc (he ▸ hmem))
      simp only [dedupGo, if_pos hmem, List.find?, hne]
      exact ih seen hc
    · by_cases heq : d.cnpj = c
      · have hbe : (d.cnpj == c) = true := beq_iff_eq.mpr heq
        simp only [dedupGo, if_neg hmem, List.filter_cons, hbe, List.find?, Option.toList]
        rw [dedupGo_filter_of_seen c ds (d.cnpj :: seen) (heq ▸ List.mem_cons_self _ _)]
        simp
      · have hbe : (d.cnpj == c) = false := beq_eq_false_iff_ne.mpr heq
        simp only [dedupGo, if_neg hmem, List.filter_cons, hbe, List.find?]
        exact ih (d.cnpj :: seen) (by
          intro hin
          rcases List.mem_cons.mp hin with h1 | h2
          · exact heq h1.symm
          · exact hc h2)

theorem find?_cnpj_isSome_of_mem_map {ds : List DebtorRow} {c : String}
    (hc : c ∈ ds.map DebtorRow.cnpj) :
    ∃ d, ds.find? (fun d => d.cnpj == c) = some d ∧ d.cnpj = c := by
  induction ds with
  | nil => simp at hc
  | cons d ds ih =>
    by_cases heq : d.cnpj = c
    · exact ⟨d, by simp [List.find?, beq_iff_eq.mpr heq], heq⟩
    · have hc' : c ∈ ds.map DebtorRow.cnpj := by
        rw [List.map_cons, List.mem_cons] at hc
        rcases hc with h1 | h2
        · exact absurd h1.symm heq
        · exact h2
      obtain ⟨d0, hd0, hd0c⟩ := ih hc'
      exact ⟨d0, by simp [List.find?, beq_eq_false_iff_ne.mpr heq, hd0], hd0c⟩

/-! # Claims -/

/-- C2: numeric coercion (`_to_float_safe`).  An `int` or `float` input
passes through as the same numeric value; `"1.234,56"` coerces to `1234.56`,
`"0,00"` to `0.0`, and `"abc"` to the unknown marker (`Option.none`).  The
coercion is a total Lean function into `Option ℚ`: every exception of the
Python body is caught (lines 21–28), which the embedding renders as totality
— no input raises. -/
theorem C2_numeric_coercion :
    (∀ n : ℤ, toFloatSafe (.int n) = some (n : ℚ))
    ∧ (∀ q : ℚ, toFloatSafe (.float q) = some q)
    ∧ toFloatSafe (.str "1.234,56") = some (1234.56 : ℚ)
    ∧ toFloatSafe (.str "0,00") = some (0.0 : ℚ)
    ∧ toFloatSafe (.str "abc") = Option.none := by
  refine ⟨fun n => rfl, fun q => rfl, ?_, ?_, by decide⟩
  · have h : toFloatSafe (.str "1.234,56") = some (mkRat 123456 100) := by decide
    rw [h]
    congr 1
    rw [Rat.mkRat_eq_div]
    norm_num
  · have h : toFloatSafe (.str "0,00") = some (mkRat 0 100) := by decide
    rw [h]
    congr 1
    rw [Rat.mkRat_eq_div]
    norm_num

/-- C4: deduplication keeps, for every identifier occurring in the input,
exactly one record — the first one in input order (`find?`) — and the output
lists identifiers in first-seen order. -/
theorem C4_dedup_first_seen (ds : List DebtorRow) (c : String)
    (hc : c ∈ ds.map DebtorRow.cnpj) :
    ((dedupByCnpj ds).filter (fun d => d.cnpj == c)).length = 1
    ∧ (dedupByCnpj ds).filter (fun d => d.cnpj == c) =
        (ds.find? (fun d => d.cnpj == c)).toList
    ∧ (dedupByCnpj ds).map DebtorRow.cnpj = firstSeenKeys (ds.map DebtorRow.cnpj) := by
  have h2 := dedupGo_filter_first c ds [] (by simp)
  obtain ⟨d0, hd0, _⟩ := find?_cnpj_isSome_of_mem_map hc
  refine ⟨?_, h2, dedupGo_map_cnpj ds []⟩
  show ((dedupGo [] ds).filter (fun d => d.cnpj == c)).length = 1
  rw [h2, hd0]
  rfl

/-- Witness for C4 at a concrete input: three rows, two sharing identifier
`"1"` with different inscription lists; the kept record is the first. -/
theorem C4_dedup_first_seen_witness :
    ((dedupByCnpj [⟨"1", some ["a"]⟩, ⟨"2", Option.none⟩, ⟨"1", some ["b"]⟩]).filter
        (fun d => d.cnpj == "1")).length = 1
    ∧ (dedupByCnpj [⟨"1", some ["a"]⟩, ⟨"2", Option.none⟩, ⟨"1", some ["b"]⟩]).filter
        (fun d => d.cnpj == "1") =
        (([⟨"1", some ["a"]⟩, ⟨"2", Option.none⟩, ⟨"1", some ["b"]⟩] : List DebtorRow).find?
          (fun d => d.cnpj == "1")).toList
    ∧ (dedupByCnpj [⟨"1", some ["a"]⟩, ⟨"2", Option.none⟩, ⟨"1", some ["b"]⟩]).map
        DebtorRow.cnpj =
        firstSeenKeys (([⟨"1", some ["a"]⟩, ⟨"2", Option.none⟩, ⟨"1", some ["b"]⟩] :
          List DebtorRow).map DebtorRow.cnpj) :=
  C4_dedup_first_seen [⟨"1", some ["a"]⟩, ⟨"2", Option.none⟩, ⟨"1", some ["b"]⟩] "1" (by decide)

theorem searchLoop_const401 (env : ℕ → SearchAttempt)
    (h : ∀ i, reportsUnauthorized (env i) = true) :
    ∀ rem tok done, searchLoop env tok done rem = ([], done + rem) := by
  intro rem
  induction rem with
  | zero => intro tok done; rfl
  | succ rem ih =>
    intro tok done
    have hi := h done
    unfold reportsUnauthorized at hi
    rw [Bool.and_eq_true] at hi
    obtain ⟨hbtn, hstat⟩ := hi
    have hadd : done + 1 + rem = done + (rem + 1) := by omega
    simp only [searchLoop, hbtn, if_true]
    cases ho : (env done).outcome with
    | timeout => rw [ho] at hstat; simp at hstat
    | resp status hAuth hTC storeTok reloadTok rows =>
      rw [ho] at hstat
      simp only at hstat
      have h401 : status = 401 := beq_iff_eq.mp hstat
      subst h401
      cases hor : truthyStr hAuth <|> truthyStr hTC with
      | some t => simp [hor, ih (some t) (done + 1), hadd]
      | none =>
        cases hst : truthyStr storeTok with
        | some t => simp [hor, hst, ih (some t) (done + 1), hadd]
        | none =>
          by_cases hrem : rem > 0
          · simp [hor, hst, hrem, ih _ (done + 1), hadd]
          · have hrem0 : rem = 0 := by omega
            subst hrem0
            simp [hor, hst]

/-- C3: when every submitted cycle reports unauthorized (HTTP 401),
`search_company` performs exactly `max_attempts` cycles and returns the
empty list as a normal value (the model is a total function, so it neither
loops nor raises). -/
theorem C3_retry_bound (env : ℕ → SearchAttempt) (maxAttempts : ℕ)
    (h : ∀ i, reportsUnauthorized (env i) = true) :
    searchCompany env maxAttempts = ([], maxAttempts) := by
  have hrun := searchLoop_const401 env h maxAttempts Option.none 0
  simpa [searchCompany] using hrun

/-- Witness for C3: an environment that answers every attempt with a bare
401 makes `search_company` run its default 3 cycles and return `[]`. -/
theorem C3_retry_bound_witness :
    searchCompany
      (fun _ => ⟨true, .resp 401 Option.none Option.none Option.none Option.none []⟩) 3 =
      ([], 3) :=
  C3_retry_bound
    (fun _ => ⟨true, .resp 401 Option.none Option.none Option.none Option.none []⟩) 3
    (fun _ => rfl)

/-- Counterexample to C1 as stated: a row whose captured detail payload is a
truthy dict with no `"id"` field is *not* dropped — `search_company` returns
a `DebtorRow` whose identifier is the empty string. -/
theorem C1_empty_identifier_counterexample :
    (searchCompany noIdEnv 3).1 = [⟨"", some []⟩]
    ∧ ∃ d, d ∈ (searchCompany noIdEnv 3).1 ∧ d.cnpj = "" := by
  refine ⟨by decide, ⟨"", some []⟩, by decide, rfl⟩

/-- C1 as amended: every surfaced `DebtorRow` comes from a table row whose
detail payload was captured (truthy dict) — rows with no captured payload
are dropped — but a captured payload lacking `"id"` is still forwarded, as
a record with empty identifier. -/
theorem C1_rows_with_payload_forwarded :
    (∀ evs d, d ∈ processRows evs →
      ∃ ev, ev ∈ evs ∧ ev.detailBtn = true ∧ ev.raised = false ∧
        ∃ fs, ev.detailJson = some (Json.obj fs) ∧ jsonTruthy (Json.obj fs) = true ∧
          d = ⟨extractCnpj (Json.obj fs), some (extractInscriptions (Json.obj fs))⟩)
    ∧ (∀ ev, ev.detailJson = Option.none → processRow ev = Option.none)
    ∧ processRow ⟨true, false, some (.obj [("naturezas", .arr [])])⟩ = some ⟨"", some []⟩ := by
  refine ⟨?_, ?_, by decide⟩
  · intro evs d hd
    rw [processRows, List.mem_filterMap] at hd
    obtain ⟨ev, hev, hsome⟩ := hd
    obtain ⟨btn, raised, dj⟩ := ev
    cases btn with
    | false => simp [processRow] at hsome
    | true =>
      cases raised with
      | true => simp [processRow] at hsome
      | false =>
        cases dj with
        | none => simp [processRow] at hsome
        | some j =>
          cases htr : jsonTruthy j with
          | false => simp [processRow, htr] at hsome
          | true =>
            cases j with
            | null => simp [jsonTruthy] at htr
            | bool b => simp [processRow, htr] at hsome
            | num q => simp [processRow, htr] at hsome
            | str s => simp [processRow, htr] at hsome
            | arr xs => simp [processRow, htr] at hsome
            | obj fs =>
              simp only [processRow, htr, Bool.and_self, Bool.not_false, if_true] at hsome
              exact ⟨⟨true, false, some (.obj fs)⟩, hev, rfl, rfl, fs, rfl, htr,
                (Option.some.inj hsome).symm⟩
  · intro ev h
    obtain ⟨btn, raised, dj⟩ := ev
    simp only at h
    subst h
    cases btn <;> cases raised <;> rfl

/-- Witness for C1 as amended, at the payload-without-id input: the record
with empty identifier is traced back to its row event. -/
theorem C1_rows_with_payload_forwarded_witness :
    ∃ ev, ev ∈ [(⟨true, false, some (.obj [("naturezas", .arr [])])⟩ : RowEvent)] ∧
      ev.detailBtn = true ∧ ev.raised = false ∧
      ∃ fs, ev.detailJson = some (Json.obj fs) ∧ jsonTruthy (Json.obj fs) = true ∧
        (⟨"", some []⟩ : DebtorRow) =
          ⟨extractCnpj (Json.obj fs), some (extractInscriptions (Json.obj fs))⟩ :=
  C1_rows_with_payload_forwarded.1
    [⟨true, false, some (.obj [("naturezas", .arr [])])⟩] ⟨"", some []⟩ (by decide)

/-- Counterexample to C5 as stated: no download event fires, the listener
*has* captured an `application/pdf` response — but its body is empty, which
is falsy in Python, so `emitir_darf_integral` raises instead of persisting
the captured bytes and returning the path. -/
theorem C5_inline_fallback_counterexample :
    downloadPhase emptyPdfEnv.tries = Option.none
    ∧ lastPdfBytes emptyPdfEnv.captured Option.none = some []
    ∧ emitirDarfIntegral "darfs" "11111111000100" "123" emptyPdfEnv = .error () := by
  refine ⟨rfl, by decide, by decide⟩

/-- C5 as amended: if no download event fires but the listener's most recent
`application/pdf` capture is a *nonempty* byte string, the flow persists
exactly those bytes at the deterministic target path and returns it. -/
theorem C5_inline_fallback (downloadDir cnpj inscricao : String) (env : EmitirEnv)
    (b : List ℕ) (hdl : downloadPhase env.tries = Option.none)
    (hcap : lastPdfBytes env.captured Option.none = some b) (hne : b ≠ []) :
    emitirDarfIntegral downloadDir cnpj inscricao env =
      .ok ⟨downloadDir, darfFileName cnpj inscricao, b⟩ := by
  cases b with
  | nil => exact absurd rfl hne
  | cons x xs =>
    simp only [emitirDarfIntegral]
    rw [hdl, hcap]
    rfl

/-- Witness for C5 as amended: a nonempty captured body is persisted when no
download fires. -/
theorem C5_inline_fallback_witness :
    emitirDarfIntegral "darfs" "1" "2"
      ⟨[⟨true, Option.none⟩], [⟨"application/pdf", some [37]⟩]⟩ =
      .ok ⟨"darfs", darfFileName "1" "2", [37]⟩ :=
  C5_inline_fallback "darfs" "1" "2"
    ⟨[⟨true, Option.none⟩], [⟨"application/pdf", some [37]⟩]⟩ [37]
    (by decide) (by decide) (by decide)

/-- C10: every call either returns an artifact in the configured download
directory whose filename is `darfFileName` of the two identifiers alone, or
raises `RuntimeError` — and it raises exactly when the download strategy
produced nothing and the captured inline bytes are absent or empty.  The
`Except` return type is the embedding of "never returns `None` or an empty
result". -/
theorem C10_emitir_total (downloadDir cnpj inscricao : String) (env : EmitirEnv) :
    (∀ art, emitirDarfIntegral downloadDir cnpj inscricao env = .ok art →
        art.dir = downloadDir ∧ art.fname = darfFileName cnpj inscricao)
    ∧ (emitirDarfIntegral downloadDir cnpj inscricao env = .error () ↔
        downloadPhase env.tries = Option.none ∧
          ∀ b, lastPdfBytes env.captured Option.none = some b → b = []) := by
  simp only [emitirDarfIntegral]
  cases hd : downloadPhase env.tries with
  | some b =>
    constructor
    · intro art hart
      cases hart
      exact ⟨rfl, rfl⟩
    · simp
  | none =>
    cases hl : lastPdfBytes env.captured Option.none with
    | none =>
      constructor
      · intro art hart
        cases hart
      · simp
    | some b =>
      cases b with
      | nil =>
        constructor
        · intro art hart
          cases hart
        · simp
      | cons x xs =>
        constructor
        · intro art hart
          cases hart
          exact ⟨rfl, rfl⟩
        · constructor
          · intro hcon
            cases hcon
          · rintro ⟨-, h2⟩
            exact absurd (h2 (x :: xs) rfl) (by simp)

/-- Witness for C10: a fired download yields an artifact in the download
directory under the deterministic name. -/
theorem C10_emitir_total_witness :
    (⟨"darfs", "DARF_1_2.pdf", [1]⟩ : DocumentArtifact).dir = "darfs"
    ∧ (⟨"darfs", "DARF_1_2.pdf", [1]⟩ : DocumentArtifact).fname = darfFileName "1" "2" :=
  (C10_emitir_total "darfs" "1" "2" ⟨[⟨true, some [1]⟩], []⟩).1
    ⟨"darfs", "DARF_1_2.pdf", [1]⟩ (by decide)

/-- C6 (code bug): with the hardcoded module-level API key, `run` never
reaches `search_company`, whatever the challenge adapter reports — the
2-variable unpacking of the adapter's 3-tuple raises `ValueError`, which the
catch-all turns into a fatal exit.  In particular the claimed
"log and proceed" path for the unresolved outcome `(False, None, None)` is
unreachable. -/
theorem C6_run_unpack_aborts :
    (∀ ok tok auth, runChallengeReachesSearch apiKeyModule (ok, tok, auth) = false)
    ∧ runChallengeReachesSearch apiKeyModule (false, Option.none, Option.none) = false :=
  ⟨fun _ _ _ => rfl, rfl⟩

/-- C7: a page whose rendered content contains no challenge marker makes the
adapter return success immediately, with zero calls to the external solving
capability. -/
theorem C7_no_challenge_noop (env : AdapterEnv) (retries : ℕ)
    (h1 : containsSub "hcaptcha" (pyLower env.content) = false)
    (h2 : containsSub "captcha" (pyLower env.content) = false) :
    solveHcaptchaWith2captcha env retries = ((true, Option.none, Option.none), 0) := by
  simp only [solveHcaptchaWith2captcha]
  rw [if_pos]
  exact ⟨by simp [h1], by simp [h2]⟩

/-- Witness for C7: a marker-free page, solver never invoked. -/
theorem C7_no_challenge_noop_witness :
    solveHcaptchaWith2captcha
      ⟨"<html><body>ok</body></html>", "", fun _ => ⟨Option.none, Option.none⟩⟩ 2 =
      ((true, Option.none, Option.none), 0) :=
  C7_no_challenge_noop
    ⟨"<html><body>ok</body></html>", "", fun _ => ⟨Option.none, Option.none⟩⟩ 2
    (by decide) (by decide)

/-- Counterexample to C8 as stated: when both click strategies throw,
`_bulletproof_click` reports failure after normal and force clicks only —
no keyboard-submit is ever attempted, so the chain's final fallback before
failure is the force click, not a keyboard-submit. -/
theorem C8_keyboard_fallback_counterexample :
    (bulletproofClick ⟨false, false⟩).1 = false
    ∧ (bulletproofClick ⟨false, false⟩).2.getLast? ≠ some ClickStrategy.keyboard
    ∧ ClickStrategy.keyboard ∉ (bulletproofClick ⟨false, false⟩).2 := by
  decide

/-- C8 as amended: the click recovers through the ordered chain (normal
click, then force click) and reports failure after the force click fails;
there is no keyboard-submit fallback. -/
theorem C8_click_fallback_chain (env : ClickEnv) :
    (bulletproofClick env).1 = (env.normalOk || env.forceOk)
    ∧ (bulletproofClick env).2 =
        (if env.normalOk then [ClickStrategy.normal] else [.normal, .force])
    ∧ ClickStrategy.keyboard ∉ (bulletproofClick env).2 := by
  obtain ⟨n, f⟩ := env
  cases n <;> cases f <;> decide

/-- Witness for C8 as amended, at the all-failing environment. -/
theorem C8_click_fallback_chain_witness :
    (bulletproofClick ⟨false, false⟩).1 = (false || false)
    ∧ (bulletproofClick ⟨false, false⟩).2 =
        (if false then [ClickStrategy.normal] else [.normal, .force])
    ∧ ClickStrategy.keyboard ∉ (bulletproofClick ⟨false, false⟩).2 :=
  C8_click_fallback_chain ⟨false, false⟩

theorem dropWhile_eq_self_of_false {p : Char → Bool} :
    ∀ {l : List Char}, (∀ c ∈ l, p c = false) → l.dropWhile p = l
  | [], _ => rfl
  | c :: cs, h => by
    rw [List.dropWhile_cons, h c (List.mem_cons_self _ _)]
    simp

theorem takeWhile_eq_self_of_true {p : Char → Bool} :
    ∀ {l : List Char}, (∀ c ∈ l, p c = true) → l.takeWhile p = l
  | [], _ => rfl
  | c :: cs, h => by
    rw [List.takeWhile_cons, h c (List.mem_cons_self _ _)]
    simp only [if_true]
    rw [takeWhile_eq_self_of_true (fun c hc => h c (List.mem_cons_of_mem _ hc))]

theorem dropWhile_eq_nil_of_true {p : Char → Bool} :
    ∀ {l : List Char}, (∀ c ∈ l, p c = true) → l.dropWhile p = []
  | [], _ => rfl
  | c :: cs, h => by
    rw [List.dropWhile_cons, h c (List.mem_cons_self _ _)]
    simp only [if_true]
    exact dropWhile_eq_nil_of_true (fun c hc => h c (List.mem_cons_of_mem _ hc))

theorem map_eq_self_of_fixed {f : Char → Char} :
    ∀ {l : List Char}, (∀ c ∈ l, f c = c) → l.map f = l
  | [], _ => rfl
  | c :: cs, h => by
    rw [List.map_cons, h c (List.mem_cons_self _ _),
      map_eq_self_of_fixed (fun c hc => h c (List.mem_cons_of_mem _ hc))]

theorem isDigit_ne {c : Char} (h : c.isDigit = true) (d : Char)
    (hd : d.isDigit = false) : ¬ c = d := by
  intro he
  rw [he, hd] at h
  cases h

theorem isDigit_not_ws {c : Char} (h : c.isDigit = true) : isPyWs c = false := by
  have h1 := isDigit_ne h ' ' (by decide)
  have h2 := isDigit_ne h '\t' (by decide)
  have h3 := isDigit_ne h '\n' (by decide)
  have h4 := isDigit_ne h '\r' (by decide)
  have h5 := isDigit_ne h '\x0b' (by decide)
  have h6 := isDigit_ne h '\x0c' (by decide)
  simp [isPyWs, h1, h2, h3, h4, h5, h6]

theorem pyStrip_of_no_ws {l : List Char} (h : ∀ c ∈ l, isPyWs c = false) :
    pyStrip (String.mk l) = String.mk l := by
  unfold pyStrip
  rw [show (String.mk l).toList = l from rfl]
  rw [dropWhile_eq_self_of_false h]
  rw [dropWhile_eq_self_of_false (fun c hc => h c (List.mem_reverse.mp hc))]
  rw [List.reverse_reverse]

theorem parseUnsignedDec_digits {cs : List Char} (h : ∀ c ∈ cs, c.isDigit = true)
    (hne : cs ≠ []) : parseUnsignedDec cs = some (digitsVal cs) := by
  unfold parseUnsignedDec
  have hall : cs.all (fun c => c.isDigit || c = '.') = true := by
    rw [List.all_eq_true]
    intro c hc
    simp [h c hc]
  have hcount : cs.count '.' = 0 := by
    rw [List.count_eq_zero]
    intro hdot
    have hd := h '.' hdot
    exact absurd hd (by decide)
  have hany : cs.any Char.isDigit = true := by
    rw [List.any_eq_true]
    obtain ⟨c, hc⟩ := List.exists_mem_of_ne_nil cs hne
    exact ⟨c, hc, h c hc⟩
  rw [if_pos ⟨hall, by omega, hany⟩]
  have hnotdot : ∀ c ∈ cs, (¬ c = '.' : Bool) = true := by
    intro c hc
    simpa using isDigit_ne (h c hc) '.' (by decide)
  rw [takeWhile_eq_self_of_true hnotdot, dropWhile_eq_nil_of_true hnotdot]
  simp only [List.drop_nil, List.length_nil, pow_zero, mul_one]
  rw [show digitsVal [] = 0 from rfl]
  rw [Rat.mkRat_eq_div]
  norm_num

theorem pyFloatOfString_digits {cs : List Char} (h : ∀ c ∈ cs, c.isDigit = true)
    (hne : cs ≠ []) : pyFloatOfString (String.mk cs) = some (digitsVal cs) := by
  unfold pyFloatOfString
  cases cs with
  | nil => exact absurd rfl hne
  | cons c rest =>
    rw [show (String.mk (c :: rest)).toList = c :: rest from rfl]
    have hcd := h c (List.mem_cons_self _ _)
    simp only [if_neg (isDigit_ne hcd '-' (by decide)),
      if_neg (isDigit_ne hcd '+' (by decide))]
    exact parseUnsignedDec_digits h hne

/-- C9 (implicit): the coercion removes every `'.'` before parsing, so a
dot-decimal string with no comma parses as its digits concatenated — e.g.
`"10.5"` coerces to `105`, not `10.5` — and a `None` input returns `None`
(through the early-return, before the string pipeline). -/
theorem C9_dots_removed :
    (∀ a b : List Char, (∀ c ∈ a, c.isDigit = true) → (∀ c ∈ b, c.isDigit = true) →
      b ≠ [] →
      toFloatSafe (.str (String.mk (a ++ '.' :: b))) = some (digitsVal (a ++ b)))
    ∧ toFloatSafe (.str "10.5") = some 105
    ∧ toFloatSafe (.str "10.5") ≠ some (10.5 : ℚ)
    ∧ toFloatSafe PyVal.none = Option.none := by
  refine ⟨?_, by decide, ?_, rfl⟩
  · intro a b ha hb hbne
    have hdigits : ∀ c ∈ a ++ b, c.isDigit = true := by
      intro c hc
      rcases List.mem_append.mp hc with h1 | h2
      · exact ha c h1
      · exact hb c h2
    have hnws : ∀ c ∈ a ++ '.' :: b, isPyWs c = false := by
      intro c hc
      rcases List.mem_append.mp hc with h1 | h2
      · exact isDigit_not_ws (ha c h1)
      · rcases List.mem_cons.mp h2 with h3 | h4
        · rw [h3]; decide
        · exact isDigit_not_ws (hb c h4)
    simp only [toFloatSafe]
    rw [pyStrip_of_no_ws hnws]
    have hrem : pyRemoveChar '.' (String.mk (a ++ '.' :: b)) = String.mk (a ++ b) := by
      unfold pyRemoveChar
      rw [show (String.mk (a ++ '.' :: b)).toList = a ++ '.' :: b from rfl]
      congr 1
      rw [List.filter_append, List.filter_cons]
      simp only [decide_not, decide_True, Bool.not_true, Bool.false_eq_true, if_false]
      rw [List.filter_eq_self.mpr, List.filter_eq_self.mpr]
      · intro c hc
        simpa using isDigit_ne (hb c hc) '.' (by decide)
      · intro c hc
        simpa using isDigit_ne (ha c hc) '.' (by decide)
    rw [hrem]
    have hrep : pyReplaceChar ',' '.' (String.mk (a ++ b)) = String.mk (a ++ b) := by
      unfold pyReplaceChar
      rw [show (String.mk (a ++ b)).toList = a ++ b from rfl]
      congr 1
      exact map_eq_self_of_fixed (fun c hc =>
        if_neg (isDigit_ne (hdigits c hc) ',' (by decide)))
    rw [hrep]
    exact pyFloatOfString_digits hdigits (by
      intro hcon
      rcases List.append_eq_nil.mp hcon with ⟨-, h2⟩
      exact hbne h2)
  · have h105 : toFloatSafe (.str "10.5") = some (105 : ℚ) := by decide
    rw [h105]
    intro hc
    have hval := Option.some.inj hc
    norm_num at hval

/-- Witness for C9 at `a = ['1','0']`, `b = ['5']`: the string `"10.5"`
built from those digit lists coerces to the concatenated digits `105`. -/
theorem C9_dots_removed_witness :
    toFloatSafe (.str (String.mk (['1', '0'] ++ '.' :: ['5']))) =
      some (digitsVal (['1', '0'] ++ ['5'])) :=
  C9_dots_removed.1 ['1', '0'] ['5'] (by decide) (by decide) (by decide)

end Scrape
